import Mathlib

/-!
Shallow embedding of the `local_league` repository (Python): the domain
models of `src/local_league/models.py`, the reporting and persistence
operations of `src/local_league/repository.py`, and the season CRUD
endpoints of `src/local_league/api.py`.

Conventions of the embedding:
* Python `uuid.UUID` values become `Nat` identifiers (only equality is used).
* Python `float` becomes `ℚ` (the arithmetic the code performs: sums and
  halving of weights).
* Python `datetime.date` becomes `Int` (an ordinal day; only comparison and
  copying are used), `datetime.datetime` becomes `Nat`.
* Python dict lookups that can raise `KeyError` are embedded as `Option`
  results; `dict.get(k, default)` becomes a total lookup with a default.
-/

namespace LocalLeague

/-- `MatchOutcome` enum of `models.py`. -/
inductive MatchOutcome
  | player_one_win
  | player_two_win
  | draw
  deriving DecidableEq

/-- `EventDay` dataclass of `models.py` (string/timestamp fields kept for
faithfulness; the logic only reads `id`, `season_id`, `weight`). -/
structure EventDay where
  id : Nat
  season_id : Nat
  title : String
  held_on : Int
  weight : ℚ
  created_at : Nat
  notes : Option String
  deriving DecidableEq

/-- `Match` dataclass of `models.py`. -/
structure Match where
  id : Nat
  event_id : Nat
  player_one_id : Nat
  player_two_id : Nat
  outcome : MatchOutcome
  winner_id : Option Nat
  created_at : Nat
  notes : Option String
  deriving DecidableEq

/-- `Match.points_for_player` of `models.py`:
a draw returns `0.5 * weight` for any `player_id`; otherwise the full
weight when `winner_id == player_id`, else `0.0` (also when `winner_id`
is `None`). -/
def Match.points_for_player (m : Match) (player_id : Nat) (weight : ℚ) : ℚ :=
  if m.outcome = MatchOutcome.draw then 0.5 * weight
  else
    match m.winner_id with
    | none => 0
    | some w => if w = player_id then weight else 0

/-- `Match.opponent_of` of `models.py`. -/
def Match.opponent_of (m : Match) (player_id : Nat) : Option Nat :=
  if player_id = m.player_one_id then some m.player_two_id
  else if player_id = m.player_two_id then some m.player_one_id
  else none

/-- `SeasonStanding` dataclass of `models.py`. -/
structure SeasonStanding where
  season_id : Nat
  player_id : Nat
  wins : Nat := 0
  losses : Nat := 0
  draws : Nat := 0
  weighted_points : ℚ := 0
  deriving DecidableEq

/-- `SeasonStanding.record_match` of `models.py`: a draw bumps `draws` and
adds `event_weight * 0.5`; else if `winner_id == player_id` bumps `wins`
and adds the full weight; else if `winner_id is not None` bumps `losses`. -/
def SeasonStanding.record_match (s : SeasonStanding) (m : Match)
    (event_weight : ℚ) : SeasonStanding :=
  if m.outcome = MatchOutcome.draw then
    { s with draws := s.draws + 1,
             weighted_points := s.weighted_points + event_weight * 0.5 }
  else if m.winner_id = some s.player_id then
    { s with wins := s.wins + 1,
             weighted_points := s.weighted_points + event_weight }
  else if m.winner_id ≠ none then
    { s with losses := s.losses + 1 }
  else s

/-- The `event_weights` dict of `SeasonMatrix.build` and
`compute_season_standings`, read through `.get(event_id, 1.0)`: the weight
of the last event in the list with the given id (a Python dict
comprehension keeps the last value for a repeated key), defaulting to 1. -/
def eventWeights (events : List EventDay) (event_id : Nat) : ℚ :=
  match events.reverse.find? (fun e => e.id == event_id) with
  | some e => e.weight
  | none => 1

/-- `SeasonMatrix` dataclass of `models.py`: `rows` is the nested dict of
cells, embedded as a total function (cells of unlisted players are never
created by the code; every lookup the code performs is guarded in
`dictAdd` below, so those points are never observed). -/
structure SeasonMatrix where
  season_id : Nat
  player_order : List Nat
  rows : Nat → Nat → ℚ

/-- The statement `rows[a][b] += v` of `SeasonMatrix.build`: both dict
lookups succeed only when `a` and `b` are keys (the players listed in
`player_order`); otherwise Python raises `KeyError`, embedded as `none`. -/
def dictAdd (order : List Nat) (rows : Nat → Nat → ℚ)
    (a b : Nat) (v : ℚ) : Option (Nat → Nat → ℚ) :=
  if a ∈ order ∧ b ∈ order then
    some (fun x y => if x = a ∧ y = b then rows x y + v else rows x y)
  else none

/-- The body of the `for match in matches` loop of `SeasonMatrix.build`:
a draw adds `weight * 0.5` to both ordered cells; a decisive match whose
winner is `player_one_id` (checked first) or `player_two_id` adds the full
weight to the (winner, loser) cell; any other match is skipped. -/
def SeasonMatrix.applyMatch (order : List Nat) (events : List EventDay)
    (rows : Nat → Nat → ℚ) (m : Match) :
    Option (Nat → Nat → ℚ) :=
  let weight := eventWeights events m.event_id
  if m.outcome = MatchOutcome.draw then
    (dictAdd order rows m.player_one_id m.player_two_id (weight * 0.5)).bind
      (fun r => dictAdd order r m.player_two_id m.player_one_id (weight * 0.5))
  else if m.winner_id = some m.player_one_id then
    dictAdd order rows m.player_one_id m.player_two_id weight
  else if m.winner_id = some m.player_two_id then
    dictAdd order rows m.player_two_id m.player_one_id weight
  else
    some rows

/-- The match loop of `SeasonMatrix.build`, threading the rows table and
propagating a `KeyError` as `none`. -/
def SeasonMatrix.buildRows (order : List Nat) (events : List EventDay) :
    List Match → (Nat → Nat → ℚ) → Option (Nat → Nat → ℚ)
  | [], rows => some rows
  | m :: ms, rows =>
      (SeasonMatrix.applyMatch order events rows m).bind
        (SeasonMatrix.buildRows order events ms)

/-- `SeasonMatrix.build` of `models.py`: `player_order = list(player_ids)`,
rows initialized to `0.0` for every ordered pair of listed players, then
each match's weighted contribution is added. `none` when a dict lookup in
the loop raises. -/
def SeasonMatrix.build (season_id : Nat) (player_ids : List Nat)
    (events : List EventDay) (match_list : List Match) : Option SeasonMatrix :=
  (SeasonMatrix.buildRows player_ids events match_list (fun _ _ => 0)).map
    (fun rows =>
      { season_id := season_id, player_order := player_ids, rows := rows })

/-- `Player` dataclass of `models.py`. -/
structure Player where
  id : Nat
  display_name : String
  created_at : Nat
  is_active : Bool
  notes : Option String
  deriving DecidableEq

/-- `SeasonParticipant` dataclass of `models.py` (the `alias` field is
renamed `alias_name`: `alias` is a reserved word here). -/
structure SeasonParticipant where
  season_id : Nat
  player_id : Nat
  seed : Option Int
  alias_name : Option String
  deriving DecidableEq

/-- `Season` dataclass of `models.py`. -/
structure Season where
  id : Nat
  title : String
  starts_on : Int
  ends_on : Int
  created_at : Nat
  description : Option String
  deriving DecidableEq

/-- The SQLite database state the repository reads and writes, one list per
table of `initialize_schema` (`repository.py`). -/
structure Store where
  players : List Player
  seasons : List Season
  participants : List SeasonParticipant
  events : List EventDay
  match_rows : List Match
  deriving DecidableEq

/-- `LocalLeagueRepository.get_season`: `SELECT * FROM seasons WHERE id = ?`,
`None` when no row matches. -/
def get_season (st : Store) (season_id : Nat) : Option Season :=
  st.seasons.find? (fun s => s.id == season_id)

/-- `LocalLeagueRepository.update_season`: `UPDATE seasons SET title,
starts_on, ends_on, description WHERE id = ?`; the Boolean is
`cursor.rowcount > 0` (the Python method returns the season then, `None`
otherwise). -/
def update_season (st : Store) (season : Season) : Store × Bool :=
  ({ st with
      seasons := st.seasons.map (fun s =>
        if s.id == season.id then
          { s with title := season.title, starts_on := season.starts_on,
                   ends_on := season.ends_on,
                   description := season.description }
        else s) },
   st.seasons.any (fun s => s.id == season.id))

/-- `LocalLeagueRepository.delete_season`: `DELETE FROM seasons WHERE id = ?`
under `PRAGMA foreign_keys = ON` with the schema's `ON DELETE CASCADE`
edges: deleting a season row deletes the `season_participants` and `events`
rows referencing it, and deleting an event row deletes the `matches` rows
referencing it. The Boolean is `cursor.rowcount > 0`. -/
def delete_season (st : Store) (season_id : Nat) : Store × Bool :=
  let dead_seasons := st.seasons.filter (fun s => s.id == season_id)
  let dead_events :=
    st.events.filter (fun e => dead_seasons.any (fun s => s.id == e.season_id))
  ({ st with
      seasons := st.seasons.filter (fun s => !(s.id == season_id)),
      participants := st.participants.filter
        (fun p => !(dead_seasons.any (fun s => s.id == p.season_id))),
      events := st.events.filter
        (fun e => !(dead_seasons.any (fun s => s.id == e.season_id))),
      match_rows := st.match_rows.filter
        (fun m => !(dead_events.any (fun e => e.id == m.event_id))) },
   !dead_seasons.isEmpty)

/-- The per-standing step of the match loop of
`LocalLeagueRepository.compute_season_standings`: a standing records a
match only when its `player_id` is `player_one_id` or `player_two_id`. -/
def recordIfInvolved (events : List EventDay) (s : SeasonStanding)
    (m : Match) : SeasonStanding :=
  if s.player_id = m.player_one_id ∨ s.player_id = m.player_two_id then
    s.record_match m (eventWeights events m.event_id)
  else s

/-- `LocalLeagueRepository.compute_season_standings` on its data: one fresh
standing per participant player id, then every match is offered to every
standing (`recordIfInvolved` keeps only the involving ones). -/
def compute_season_standings (season_id : Nat)
    (player_ids : List Nat) (events : List EventDay)
    (match_list : List Match) : List SeasonStanding :=
  match_list.foldl
    (fun standings m => standings.map (fun s => recordIfInvolved events s m))
    (player_ids.map (fun pid => { season_id := season_id, player_id := pid }))

/-- `SeasonCreate` request model of `api.py`. -/
structure SeasonCreatePayload where
  title : String
  starts_on : Int
  ends_on : Int
  description : Option String
  deriving DecidableEq

/-- `SeasonUpdate` request model of `api.py`: every field optional, `none`
meaning "keep the existing value". -/
structure SeasonUpdatePayload where
  title : Option String
  starts_on : Option Int
  ends_on : Option Int
  description : Option String
  deriving DecidableEq

/-- `_validate_date_range` of `api.py`: raises HTTP 422 when
`ends_on < starts_on`. -/
def validate_date_range (starts_on ends_on : Int) : Option Nat :=
  if ends_on < starts_on then some 422 else none

/-- `create_season` endpoint of `api.py` (`POST /seasons`): validate the
range, insert a season built from the payload (fresh uuid and creation
time passed in as `new_id`, `now`), answer 201. The result pairs the store
after the request with the HTTP status. -/
def create_season_api (st : Store) (new_id : Nat) (now : Nat)
    (payload : SeasonCreatePayload) : Store × Nat :=
  match validate_date_range payload.starts_on payload.ends_on with
  | some status => (st, status)
  | none =>
      let season : Season :=
        { id := new_id, title := payload.title,
          starts_on := payload.starts_on, ends_on := payload.ends_on,
          created_at := now, description := payload.description }
      ({ st with seasons := st.seasons ++ [season] }, 201)

/-- `get_season` endpoint of `api.py` (`GET /seasons/{id}`): 404 when the
repository finds no row, 200 otherwise; the store is read only. -/
def get_season_api (st : Store) (season_id : Nat) : Store × Nat :=
  match get_season st season_id with
  | none => (st, 404)
  | some _ => (st, 200)

/-- `update_season` endpoint of `api.py` (`PUT /seasons/{id}`): 404 when
the season is missing, else build the updated season (payload fields
overriding the existing ones), validate the effective range (422), then
run the repository update (404 again if its rowcount were 0, 200 on
success). -/
def update_season_api (st : Store) (season_id : Nat)
    (payload : SeasonUpdatePayload) : Store × Nat :=
  match get_season st season_id with
  | none => (st, 404)
  | some existing =>
      let updated : Season :=
        { existing with
            title := payload.title.getD existing.title,
            starts_on := payload.starts_on.getD existing.starts_on,
            ends_on := payload.ends_on.getD existing.ends_on,
            description :=
              match payload.description with
              | some d => some d
              | none => existing.description }
      match validate_date_range updated.starts_on updated.ends_on with
      | some status => (st, status)
      | none =>
          let result := update_season st updated
          if result.2 then (result.1, 200) else (result.1, 404)

/-- `delete_season` endpoint of `api.py` (`DELETE /seasons/{id}`): 204 when
the repository deleted a row, 404 otherwise. -/
def delete_season_api (st : Store) (season_id : Nat) : Store × Nat :=
  let result := delete_season st season_id
  if result.2 then (result.1, 204) else (result.1, 404)

/-- Sample event of season 5 with weight 2, used by concrete witnesses. -/
def sampleEvent : EventDay :=
  { id := 10, season_id := 5, title := "E", held_on := 0, weight := 2,
    created_at := 0, notes := none }

/-- Sample decisive match in `sampleEvent`: player 1 beats player 2. -/
def sampleWin : Match :=
  { id := 0, event_id := 10, player_one_id := 1, player_two_id := 2,
    outcome := MatchOutcome.player_one_win, winner_id := some 1,
    created_at := 0, notes := none }

/-- The matrix `SeasonMatrix.build` produces for `sampleWin` alone. -/
def sampleMatrix : SeasonMatrix :=
  { season_id := 5, player_order := [1, 2],
    rows := fun x y => if x = 1 ∧ y = 2 then 0 + 2 else 0 }

/-- Sample season with id 1 and a valid date range, for witnesses. -/
def sampleSeason : Season :=
  { id := 1, title := "S", starts_on := 0, ends_on := 30, created_at := 0,
    description := none }

/-- Sample store holding only `sampleSeason`, for the API witnesses. -/
def sampleStore : Store :=
  { players := [], seasons := [sampleSeason], participants := [],
    events := [], match_rows := [] }

/-- The condition under which the match loop of `SeasonMatrix.build`
performs only successful dict lookups for one match: whenever the match is
a draw, or is decisive with its winner equal to one of its two players,
both of its players must be listed. Any other match touches no cell. -/
def match_players_listed (order : List Nat) (m : Match) : Prop :=
  (m.outcome = MatchOutcome.draw ∨ m.winner_id = some m.player_one_id ∨
      m.winner_id = some m.player_two_id) →
    (m.player_one_id ∈ order ∧ m.player_two_id ∈ order)

/-- Total weight exchanged between players `a` and `b` over a list of
matches: the sum, over the matches whose two players are exactly `a` and
`b`, of the owning event's weight (looked up as the code does, with
default 1). -/
def pairWeight (events : List EventDay) (a b : Nat) :
    List Match → ℚ
  | [] => 0
  | m :: ms =>
      (if (m.player_one_id = a ∧ m.player_two_id = b) ∨
          (m.player_one_id = b ∧ m.player_two_id = a)
       then eventWeights events m.event_id else 0) + pairWeight events a b ms

section Theorems

/-- C2: recording a DRAW match increments the standing's draw count by 1
and adds exactly 0.5 times the event weight to its weighted points, leaving
wins and losses unchanged; this holds for both players of the match. -/
theorem C2_record_match_draw (s : SeasonStanding) (m : Match)
    (event_weight : ℚ) (hdraw : m.outcome = MatchOutcome.draw)
    (hplayer : s.player_id = m.player_one_id ∨ s.player_id = m.player_two_id) :
    (s.record_match m event_weight).draws = s.draws + 1 ∧
    (s.record_match m event_weight).weighted_points
      = s.weighted_points + 0.5 * event_weight ∧
    (s.record_match m event_weight).wins = s.wins ∧
    (s.record_match m event_weight).losses = s.losses := by
  unfold SeasonStanding.record_match
  rw [if_pos hdraw]
  exact ⟨rfl, by ring, rfl, rfl⟩

/-- C2 witness: a concrete draw between players 2 and 3 under weight 4. -/
theorem C2_record_match_draw_witness :
    (({ season_id := 5, player_id := 2 } : SeasonStanding).record_match
        { id := 0, event_id := 10, player_one_id := 2, player_two_id := 3,
          outcome := MatchOutcome.draw, winner_id := none,
          created_at := 0, notes := none } 4).draws = 0 + 1 ∧
    (({ season_id := 5, player_id := 2 } : SeasonStanding).record_match
        { id := 0, event_id := 10, player_one_id := 2, player_two_id := 3,
          outcome := MatchOutcome.draw, winner_id := none,
          created_at := 0, notes := none } 4).weighted_points = 0 + 0.5 * 4 ∧
    (({ season_id := 5, player_id := 2 } : SeasonStanding).record_match
        { id := 0, event_id := 10, player_one_id := 2, player_two_id := 3,
          outcome := MatchOutcome.draw, winner_id := none,
          created_at := 0, notes := none } 4).wins = 0 ∧
    (({ season_id := 5, player_id := 2 } : SeasonStanding).record_match
        { id := 0, event_id := 10, player_one_id := 2, player_two_id := 3,
          outcome := MatchOutcome.draw, winner_id := none,
          created_at := 0, notes := none } 4).losses = 0 :=
  C2_record_match_draw _ _ 4 rfl (Or.inl rfl)

/-- C3: for a decisive match whose winner is one of the two participants,
recording it adds the event weight to the winner's points and bumps the
winner's wins, and bumps the loser's losses leaving the loser's points
(and wins/draws) unchanged. -/
theorem C3_record_match_decisive (s t : SeasonStanding) (m : Match)
    (event_weight : ℚ) (w : Nat)
    (hdec : m.outcome ≠ MatchOutcome.draw)
    (hw : m.winner_id = some w)
    (hpart : w = m.player_one_id ∨ w = m.player_two_id)
    (hs : s.player_id = w)
    (htpart : t.player_id = m.player_one_id ∨ t.player_id = m.player_two_id)
    (ht : t.player_id ≠ w) :
    ((s.record_match m event_weight).weighted_points
        = s.weighted_points + event_weight ∧
      (s.record_match m event_weight).wins = s.wins + 1 ∧
      (s.record_match m event_weight).losses = s.losses ∧
      (s.record_match m event_weight).draws = s.draws) ∧
    ((t.record_match m event_weight).losses = t.losses + 1 ∧
      (t.record_match m event_weight).weighted_points = t.weighted_points ∧
      (t.record_match m event_weight).wins = t.wins ∧
      (t.record_match m event_weight).draws = t.draws) := by
  unfold SeasonStanding.record_match
  constructor
  · rw [if_neg hdec, if_pos (by rw [hw, hs])]
    exact ⟨rfl, rfl, rfl, rfl⟩
  · rw [if_neg hdec, if_neg (by rw [hw]; simp; intro h; exact ht h.symm),
      if_pos (by rw [hw]; simp)]
    exact ⟨rfl, rfl, rfl, rfl⟩

/-- C3 witness: player 2 beats player 3 under weight 4. -/
theorem C3_record_match_decisive_witness :
    ((({ season_id := 5, player_id := 2 } : SeasonStanding).record_match
        { id := 0, event_id := 10, player_one_id := 2, player_two_id := 3,
          outcome := MatchOutcome.player_one_win, winner_id := some 2,
          created_at := 0, notes := none } 4).weighted_points = 0 + 4 ∧
      (({ season_id := 5, player_id := 2 } : SeasonStanding).record_match
        { id := 0, event_id := 10, player_one_id := 2, player_two_id := 3,
          outcome := MatchOutcome.player_one_win, winner_id := some 2,
          created_at := 0, notes := none } 4).wins = 0 + 1 ∧
      (({ season_id := 5, player_id := 2 } : SeasonStanding).record_match
        { id := 0, event_id := 10, player_one_id := 2, player_two_id := 3,
          outcome := MatchOutcome.player_one_win, winner_id := some 2,
          created_at := 0, notes := none } 4).losses = 0 ∧
      (({ season_id := 5, player_id := 2 } : SeasonStanding).record_match
        { id := 0, event_id := 10, player_one_id := 2, player_two_id := 3,
          outcome := MatchOutcome.player_one_win, winner_id := some 2,
          created_at := 0, notes := none } 4).draws = 0) ∧
    ((({ season_id := 5, player_id := 3 } : SeasonStanding).record_match
        { id := 0, event_id := 10, player_one_id := 2, player_two_id := 3,
          outcome := MatchOutcome.player_one_win, winner_id := some 2,
          created_at := 0, notes := none } 4).losses = 0 + 1 ∧
      (({ season_id := 5, player_id := 3 } : SeasonStanding).record_match
        { id := 0, event_id := 10, player_one_id := 2, player_two_id := 3,
          outcome := MatchOutcome.player_one_win, winner_id := some 2,
          created_at := 0, notes := none } 4).weighted_points = 0 ∧
      (({ season_id := 5, player_id := 3 } : SeasonStanding).record_match
        { id := 0, event_id := 10, player_one_id := 2, player_two_id := 3,
          outcome := MatchOutcome.player_one_win, winner_id := some 2,
          created_at := 0, notes := none } 4).wins = 0 ∧
      (({ season_id := 5, player_id := 3 } : SeasonStanding).record_match
        { id := 0, event_id := 10, player_one_id := 2, player_two_id := 3,
          outcome := MatchOutcome.player_one_win, winner_id := some 2,
          created_at := 0, notes := none } 4).draws = 0) :=
  C3_record_match_decisive _ _ _ 4 2 (by decide) rfl (Or.inl rfl) rfl
    (Or.inr rfl) (by decide)

/-- C9: on a DRAW match, `points_for_player` returns `0.5 * weight` for
every player id, with no membership check against the match's players. -/
theorem C9_points_for_player_draw (m : Match) (player_id : Nat)
    (weight : ℚ) (hdraw : m.outcome = MatchOutcome.draw) :
    m.points_for_player player_id weight = 0.5 * weight := by
  unfold Match.points_for_player
  rw [if_pos hdraw]

/-- C9 witness: player 99 is neither player of the drawn match between 2
and 3, yet receives `0.5 * 4`. -/
theorem C9_points_for_player_draw_witness :
    ({ id := 0, event_id := 10, player_one_id := 2, player_two_id := 3,
        outcome := MatchOutcome.draw, winner_id := none,
        created_at := 0, notes := none } : Match).points_for_player 99 4
      = 0.5 * 4 :=
  C9_points_for_player_draw _ 99 4 rfl

/-- C8: a built matrix's `player_order` is exactly the caller's player id
list, and with no matches every cell is 0. -/
theorem C8_build_order_and_init (season_id : Nat)
    (player_ids : List Nat) (events : List EventDay)
    (match_list : List Match) (mtx : SeasonMatrix)
    (hbuild : SeasonMatrix.build season_id player_ids events match_list
      = some mtx) :
    mtx.player_order = player_ids ∧
    (match_list = [] → ∀ a b, mtx.rows a b = 0) := by
  unfold SeasonMatrix.build at hbuild
  rcases Option.map_eq_some'.mp hbuild with ⟨rows, hrows, hmtx⟩
  subst hmtx
  refine ⟨rfl, ?_⟩
  intro hnil a b
  subst hnil
  unfold SeasonMatrix.buildRows at hrows
  rw [Option.some_inj] at hrows
  rw [← hrows]

/-- C8 witness: building with players `[0, 1]` and no matches. -/
theorem C8_build_order_and_init_witness :
    ({ season_id := 7, player_order := [0, 1], rows := fun _ _ => 0 }
        : SeasonMatrix).player_order = [0, 1] :=
  (C8_build_order_and_init 7 [0, 1] [] []
    { season_id := 7, player_order := [0, 1], rows := fun _ _ => 0 } rfl).1

lemma applyMatch_isSome_iff (order : List Nat) (events : List EventDay)
    (rows : Nat → Nat → ℚ) (m : Match) :
    (SeasonMatrix.applyMatch order events rows m).isSome ↔
      match_players_listed order m := by
  unfold SeasonMatrix.applyMatch match_players_listed dictAdd
  by_cases hdraw : m.outcome = MatchOutcome.draw
  · rw [if_pos hdraw]
    by_cases hmem : m.player_one_id ∈ order ∧ m.player_two_id ∈ order
    · rw [if_pos hmem, Option.some_bind, if_pos ⟨hmem.2, hmem.1⟩]
      simp [hdraw, hmem]
    · rw [if_neg hmem, Option.none_bind]
      simp [hdraw, hmem]
  · rw [if_neg hdraw]
    by_cases hw1 : m.winner_id = some m.player_one_id
    · rw [if_pos hw1]
      by_cases hmem : m.player_one_id ∈ order ∧ m.player_two_id ∈ order
      · rw [if_pos hmem]; simp [hw1, hmem]
      · rw [if_neg hmem]; simp [hdraw, hw1, hmem]
    · rw [if_neg hw1]
      by_cases hw2 : m.winner_id = some m.player_two_id
      · rw [if_pos hw2]
        by_cases hmem : m.player_two_id ∈ order ∧ m.player_one_id ∈ order
        · rw [if_pos hmem]; simp [hw2, hmem.1, hmem.2]
        · rw [if_neg hmem]
          simp only [Option.isSome_none, Bool.false_eq_true, false_iff]
          intro h
          rcases h (Or.inr (Or.inr hw2)) with ⟨h1, h2⟩
          exact hmem ⟨h2, h1⟩
      · simp [hdraw, hw1, hw2]

lemma buildRows_isSome_iff (order : List Nat) (events : List EventDay) :
    ∀ (ms : List Match) (rows : Nat → Nat → ℚ),
      (SeasonMatrix.buildRows order events ms rows).isSome ↔
        ∀ m ∈ ms, match_players_listed order m := by
  intro ms
  induction ms with
  | nil => intro rows; simp [SeasonMatrix.buildRows]
  | cons m ms ih =>
      intro rows
      unfold SeasonMatrix.buildRows
      rcases h : SeasonMatrix.applyMatch order events rows m with _ | r
      · have := (applyMatch_isSome_iff order events rows m).symm
        rw [h] at this
        simp only [Option.none_bind, Option.isSome_none, Bool.false_eq_true,
          false_iff]
        intro hall
        have : match_players_listed order m ↔ False := by
          simpa using this
        exact this.mp (hall m (List.mem_cons_self m ms))
      · have hm : match_players_listed order m := by
          have := (applyMatch_isSome_iff order events rows m).mp
          rw [h] at this
          exact this rfl
        rw [Option.some_bind, ih r]
        constructor
        · intro hall m' hm'
          rcases List.mem_cons.mp hm' with h' | h'
          · exact h' ▸ hm
          · exact hall m' h'
        · intro hall m' hm'
          exact hall m' (List.mem_cons_of_mem m hm')

/-- C10: `SeasonMatrix.build` completes (returns `some`) exactly when every
match references only listed players wherever it performs a cell lookup: a
draw needs both players listed, a decisive match whose winner is one of its
players needs both listed, and any other match is skipped. A match
referencing an unlisted player makes the lookup fail (`none`, a `KeyError`
in Python) instead of being ignored. -/
theorem C10_build_some_iff_listed (season_id : Nat)
    (player_ids : List Nat) (events : List EventDay)
    (match_list : List Match) :
    (SeasonMatrix.build season_id player_ids events match_list).isSome ↔
      ∀ m ∈ match_list, match_players_listed player_ids m := by
  unfold SeasonMatrix.build
  rw [Option.isSome_map']
  exact buildRows_isSome_iff player_ids events match_list _

lemma dictAdd_some_apply {order : List Nat}
    {rows r : Nat → Nat → ℚ} {a b : Nat} {v : ℚ}
    (h : dictAdd order rows a b v = some r) :
    ∀ x y, r x y = rows x y + (if x = a ∧ y = b then v else 0) := by
  unfold dictAdd at h
  split at h
  · intro x y
    rw [Option.some_inj] at h
    rw [← h]
    show (if x = a ∧ y = b then rows x y + v else rows x y)
        = rows x y + (if x = a ∧ y = b then v else 0)
    by_cases hxy : x = a ∧ y = b
    · rw [if_pos hxy, if_pos hxy]
    · rw [if_neg hxy, if_neg hxy, add_zero]
  · exact absurd h (by simp)

lemma applyMatch_pair_sum {order : List Nat} {events : List EventDay}
    {rows r : Nat → Nat → ℚ} {m : Match} {a b : Nat}
    (hab : a ≠ b)
    (hw : m.outcome ≠ MatchOutcome.draw →
      m.winner_id = some m.player_one_id ∨ m.winner_id = some m.player_two_id)
    (h : SeasonMatrix.applyMatch order events rows m = some r) :
    r a b + r b a = rows a b + rows b a +
      (if (m.player_one_id = a ∧ m.player_two_id = b) ∨
          (m.player_one_id = b ∧ m.player_two_id = a)
       then eventWeights events m.event_id else 0) := by
  unfold SeasonMatrix.applyMatch at h
  by_cases hdraw : m.outcome = MatchOutcome.draw
  · rw [if_pos hdraw] at h
    rcases Option.bind_eq_some.mp h with ⟨r1, h1, h2⟩
    have e1 := dictAdd_some_apply h1
    have e2 := dictAdd_some_apply h2
    rw [e2 a b, e2 b a, e1 a b, e1 b a]
    split_ifs <;> first | ring1 | (exfalso; omega)
  · rw [if_neg hdraw] at h
    by_cases hw1 : m.winner_id = some m.player_one_id
    · rw [if_pos hw1] at h
      have e1 := dictAdd_some_apply h
      rw [e1 a b, e1 b a]
      split_ifs <;> first | ring1 | (exfalso; omega)
    · rw [if_neg hw1] at h
      by_cases hw2 : m.winner_id = some m.player_two_id
      · rw [if_pos hw2] at h
        have e1 := dictAdd_some_apply h
        rw [e1 a b, e1 b a]
        split_ifs <;> first | ring1 | (exfalso; omega)
      · exact absurd (hw hdraw) (by simp [hw1, hw2])

lemma buildRows_pair_sum {order : List Nat} {events : List EventDay}
    {a b : Nat} (hab : a ≠ b) :
    ∀ (ms : List Match) (rows r : Nat → Nat → ℚ),
      (∀ m ∈ ms, m.outcome ≠ MatchOutcome.draw →
        m.winner_id = some m.player_one_id ∨
          m.winner_id = some m.player_two_id) →
      SeasonMatrix.buildRows order events ms rows = some r →
      r a b + r b a = rows a b + rows b a + pairWeight events a b ms := by
  intro ms
  induction ms with
  | nil =>
      intro rows r _ h
      unfold SeasonMatrix.buildRows at h
      rw [Option.some_inj] at h
      rw [← h]
      unfold pairWeight
      ring
  | cons m ms ih =>
      intro rows r hwin h
      unfold SeasonMatrix.buildRows at h
      rcases Option.bind_eq_some.mp h with ⟨r1, h1, h2⟩
      have hstep := applyMatch_pair_sum hab
        (hwin m (List.mem_cons_self m ms)) h1
      have hrest := ih r1 r
        (fun m' hm' => hwin m' (List.mem_cons_of_mem m hm')) h2
      unfold pairWeight
      rw [hrest, hstep]
      ring

/-- C1: in a successfully built season matrix, for every ordered pair of
distinct listed players `(a, b)`, `rows a b + rows b a` equals the total
weight exchanged between `a` and `b` — the sum of the owning-event weights
of all matches between them — assuming every decisive match's winner is
one of that match's two players. -/
theorem C1_matrix_cell_transpose_sum (season_id : Nat)
    (player_ids : List Nat) (events : List EventDay)
    (match_list : List Match) (mtx : SeasonMatrix) (a b : Nat)
    (ha : a ∈ player_ids) (hb : b ∈ player_ids) (hab : a ≠ b)
    (hwin : ∀ m ∈ match_list, m.outcome ≠ MatchOutcome.draw →
      m.winner_id = some m.player_one_id ∨ m.winner_id = some m.player_two_id)
    (hbuild : SeasonMatrix.build season_id player_ids events match_list
      = some mtx) :
    mtx.rows a b + mtx.rows b a = pairWeight events a b match_list := by
  unfold SeasonMatrix.build at hbuild
  rcases Option.map_eq_some'.mp hbuild with ⟨rows, hrows, hmtx⟩
  subst hmtx
  have := buildRows_pair_sum hab match_list (fun _ _ => 0) rows hwin hrows
  simpa using this

/-- C1 witness: one decisive match, player 1 beating player 2 in an event
of weight 2; the pair's two cells sum to the exchanged weight. -/
theorem C1_matrix_cell_transpose_sum_witness :
    sampleMatrix.rows 1 2 + sampleMatrix.rows 2 1
      = pairWeight [sampleEvent] 1 2 [sampleWin] :=
  C1_matrix_cell_transpose_sum 5 [1, 2] [sampleEvent] [sampleWin]
    sampleMatrix 1 2 (by decide) (by decide) (by decide)
    (by intro m hm hdec
        simp only [List.mem_singleton] at hm
        subst hm
        exact Or.inl rfl)
    (by rfl)

lemma record_match_player_id (s : SeasonStanding) (m : Match) (w : ℚ) :
    (s.record_match m w).player_id = s.player_id := by
  unfold SeasonStanding.record_match
  split_ifs <;> rfl

lemma recordIfInvolved_player_id (events : List EventDay)
    (s : SeasonStanding) (m : Match) :
    (recordIfInvolved events s m).player_id = s.player_id := by
  unfold recordIfInvolved
  split_ifs
  · exact record_match_player_id s m _
  · rfl

lemma foldl_recordIfInvolved_player_id (events : List EventDay) :
    ∀ (ms : List Match) (s : SeasonStanding),
      (ms.foldl (fun a m => recordIfInvolved events a m) s).player_id
        = s.player_id := by
  intro ms
  induction ms with
  | nil => intro s; rfl
  | cons m ms ih =>
      intro s
      rw [List.foldl_cons, ih, recordIfInvolved_player_id]

lemma foldl_map_standings (events : List EventDay) :
    ∀ (ms : List Match) (init : List SeasonStanding),
      ms.foldl
        (fun standings m => standings.map (fun s => recordIfInvolved events s m))
        init
      = init.map (fun s => ms.foldl (fun a m => recordIfInvolved events a m) s) := by
  intro ms
  induction ms with
  | nil => intro init; simp
  | cons m ms ih =>
      intro init
      rw [List.foldl_cons, ih, List.map_map]
      rfl

lemma foldl_filter_involved (events : List EventDay) :
    ∀ (ms : List Match) (s : SeasonStanding),
      ms.foldl (fun a m => recordIfInvolved events a m) s
        = (ms.filter (fun m =>
              decide (s.player_id = m.player_one_id ∨
                s.player_id = m.player_two_id))).foldl
            (fun a m => a.record_match m (eventWeights events m.event_id)) s := by
  intro ms
  induction ms with
  | nil => intro s; rfl
  | cons m ms ih =>
      intro s
      by_cases hin : s.player_id = m.player_one_id ∨ s.player_id = m.player_two_id
      · rw [List.foldl_cons, List.filter_cons_of_pos (by simpa using hin),
          List.foldl_cons]
        have hstep : recordIfInvolved events s m
            = s.record_match m (eventWeights events m.event_id) := by
          unfold recordIfInvolved
          rw [if_pos hin]
        rw [hstep, ih]
        simp only [record_match_player_id]
      · rw [List.foldl_cons, List.filter_cons_of_neg (by simpa using hin)]
        have hstep : recordIfInvolved events s m = s := by
          unfold recordIfInvolved
          rw [if_neg hin]
        rw [hstep, ih]

/-- C4: every standing produced by the season standings computation is
fully determined by the matches that list its player: it equals the fold
of `record_match` over exactly those matches, starting from a fresh
standing. Matches not listing the player contribute nothing. -/
theorem C4_only_involving_matches (season_id : Nat) (player_ids : List Nat)
    (events : List EventDay) (match_list : List Match) (s : SeasonStanding)
    (hs : s ∈ compute_season_standings season_id player_ids events match_list) :
    s = (match_list.filter (fun m =>
            decide (s.player_id = m.player_one_id ∨
              s.player_id = m.player_two_id))).foldl
          (fun a m => a.record_match m (eventWeights events m.event_id))
          { season_id := season_id, player_id := s.player_id } := by
  unfold compute_season_standings at hs
  rw [foldl_map_standings] at hs
  rcases List.mem_map.mp hs with ⟨pid, hpid, hfold⟩
  rcases List.mem_map.mp hpid with ⟨q, hq, hinit⟩
  rw [← hfold, ← foldl_filter_involved]
  congr 1
  rw [foldl_recordIfInvolved_player_id, ← hinit]

/-- C4 witness: with players `[1, 2, 3]` and the single decisive match of
`sampleWin` (between 1 and 2), the standing of each listed player equals
the filtered fold; instantiated for the standing of the uninvolved player
3, whose filtered match list is empty. -/
theorem C4_only_involving_matches_witness :
    ({ season_id := 5, player_id := 3 } : SeasonStanding)
      = ([sampleWin].filter (fun m =>
            decide ((3 : Nat) = m.player_one_id ∨
              (3 : Nat) = m.player_two_id))).foldl
          (fun a m => a.record_match m (eventWeights [sampleEvent] m.event_id))
          { season_id := 5, player_id := 3 } :=
  C4_only_involving_matches 5 [1, 2, 3] [sampleEvent] [sampleWin]
    { season_id := 5, player_id := 3 } (by decide)

/-- C5: when `delete_season` succeeds for a season id, the resulting store
has no participant of that season, no event owned by that season, and no
match belonging to an event of that season (cascade delete). -/
theorem C5_delete_season_cascade (st : Store) (season_id : Nat) (st' : Store)
    (h : delete_season st season_id = (st', true)) :
    (∀ e ∈ st'.events, e.season_id ≠ season_id) ∧
    (∀ p ∈ st'.participants, p.season_id ≠ season_id) ∧
    (∀ m ∈ st'.match_rows, ∀ e ∈ st.events,
      e.season_id = season_id → m.event_id ≠ e.id) := by
  unfold delete_season at h
  rw [Prod.mk.injEq] at h
  obtain ⟨hst, hsucc⟩ := h
  subst hst
  have hex : ∃ s₀ ∈ st.seasons, s₀.id = season_id := by
    rcases hdead : st.seasons.filter (fun s => s.id == season_id) with _ | ⟨s₀, tl⟩
    · rw [hdead] at hsucc
      simp at hsucc
    · have hmem : s₀ ∈ st.seasons.filter (fun s => s.id == season_id) := by
        rw [hdead]
        exact List.mem_cons_self s₀ tl
      rcases List.mem_filter.mp hmem with ⟨hmem', hpred⟩
      exact ⟨s₀, hmem', by simpa using hpred⟩
  obtain ⟨s₀, hs₀, hs₀id⟩ := hex
  have hs₀dead : s₀ ∈ st.seasons.filter (fun s => s.id == season_id) :=
    List.mem_filter.mpr ⟨hs₀, by simpa using hs₀id⟩
  refine ⟨?_, ?_, ?_⟩
  · intro e he heq
    rcases List.mem_filter.mp he with ⟨he', hpred⟩
    simp only [List.any_eq_true, Bool.not_eq_true', List.any_eq_false] at hpred
    exact absurd (by simpa using (hs₀id.trans heq.symm)) (hpred s₀ hs₀dead)
  · intro p hp heq
    rcases List.mem_filter.mp hp with ⟨hp', hpred⟩
    simp only [List.any_eq_true, Bool.not_eq_true', List.any_eq_false] at hpred
    exact absurd (by simpa using (hs₀id.trans heq.symm)) (hpred s₀ hs₀dead)
  · intro m hm e he heq hmid
    rcases List.mem_filter.mp hm with ⟨hm', hpred⟩
    simp only [List.any_eq_true, Bool.not_eq_true', List.any_eq_false] at hpred
    have hedead : e ∈ st.events.filter
        (fun e => (st.seasons.filter (fun s => s.id == season_id)).any
          (fun s => s.id == e.season_id)) := by
      refine List.mem_filter.mpr ⟨he, ?_⟩
      simp only [List.any_eq_true]
      exact ⟨s₀, hs₀dead, by simpa using (hs₀id.trans heq.symm)⟩
    exact absurd (by simpa using hmid.symm) (hpred e hedead)

/-- C5 witness: deleting season 1 from a store with one event of season 1,
one participant, and one match in that event empties all three tables. -/
theorem C5_delete_season_cascade_witness :
    (∀ e ∈ (Store.mk [] [] [] [] []).events, e.season_id ≠ 1) ∧
    (∀ p ∈ (Store.mk [] [] [] [] []).participants, p.season_id ≠ 1) ∧
    (∀ m ∈ (Store.mk [] [] [] [] []).match_rows,
      ∀ e ∈ ([{ id := 10, season_id := 1, title := "E", held_on := 0,
                weight := 1, created_at := 0, notes := none }] : List EventDay),
        e.season_id = 1 → m.event_id ≠ e.id) :=
  C5_delete_season_cascade
    (Store.mk []
      [{ id := 1, title := "S", starts_on := 0, ends_on := 30,
         created_at := 0, description := none }]
      [{ season_id := 1, player_id := 2, seed := none, alias_name := none }]
      [{ id := 10, season_id := 1, title := "E", held_on := 0, weight := 1,
         created_at := 0, notes := none }]
      [{ id := 0, event_id := 10, player_one_id := 2, player_two_id := 3,
         outcome := MatchOutcome.draw, winner_id := none, created_at := 0,
         notes := none }])
    1 (Store.mk [] [] [] [] []) (by decide)

/-- C6: a season create request is rejected with 422 leaving the store
unchanged exactly when its `ends_on` is strictly before its `starts_on`,
and otherwise answers 201; a season update request (for a stored season)
is rejected with 422 leaving the store unchanged exactly when the
effective `ends_on` (payload value, else existing) is strictly before the
effective `starts_on`, and otherwise answers 200. -/
theorem C6_date_range_validation (st : Store) (new_id now : Nat)
    (payload : SeasonCreatePayload) (season_id : Nat)
    (q : SeasonUpdatePayload) (existing : Season)
    (hex : get_season st season_id = some existing) :
    ((create_season_api st new_id now payload).2 = 422 ∧
        (create_season_api st new_id now payload).1 = st ↔
      payload.ends_on < payload.starts_on) ∧
    (¬ payload.ends_on < payload.starts_on →
      (create_season_api st new_id now payload).2 = 201) ∧
    ((update_season_api st season_id q).2 = 422 ∧
        (update_season_api st season_id q).1 = st ↔
      q.ends_on.getD existing.ends_on < q.starts_on.getD existing.starts_on) ∧
    (¬ q.ends_on.getD existing.ends_on < q.starts_on.getD existing.starts_on →
      (update_season_api st season_id q).2 = 200) := by
  have hmem : existing ∈ st.seasons := List.mem_of_find?_eq_some hex
  have hrow : st.seasons.any (fun s => s.id == existing.id) = true := by
    rw [List.any_eq_true]
    exact ⟨existing, hmem, by simp⟩
  refine ⟨?_, ?_, ?_, ?_⟩
  · unfold create_season_api validate_date_range
    by_cases hlt : payload.ends_on < payload.starts_on
    · rw [if_pos hlt]
      simp [hlt]
    · rw [if_neg hlt]
      simp [hlt]
  · intro hge
    unfold create_season_api validate_date_range
    rw [if_neg hge]
  · unfold update_season_api validate_date_range update_season
    rw [hex]
    by_cases hlt :
        q.ends_on.getD existing.ends_on < q.starts_on.getD existing.starts_on
    · simp [hlt]
    · simp [hlt, hrow]
  · intro hge
    unfold update_season_api validate_date_range update_season
    rw [hex]
    simp [hge, hrow]

/-- C6 witness: the update branch of the validation theorem instantiated
on the sample store (season 1, dates 0..30) with an empty update payload,
whose effective range is the valid stored one. -/
theorem C6_date_range_validation_witness :
    ((update_season_api sampleStore 1
          { title := none, starts_on := none, ends_on := none,
            description := none }).2 = 422 ∧
        (update_season_api sampleStore 1
          { title := none, starts_on := none, ends_on := none,
            description := none }).1 = sampleStore ↔
      (none : Option Int).getD sampleSeason.ends_on
        < (none : Option Int).getD sampleSeason.starts_on) :=
  (C6_date_range_validation sampleStore 9 0
    { title := "T", starts_on := 0, ends_on := 1, description := none }
    1 { title := none, starts_on := none, ends_on := none,
        description := none }
    sampleSeason (by decide)).2.2.1

/-- C7: for a season id absent from the store, the get, update and delete
endpoints answer 404 and leave the store unchanged; for a present id the
delete endpoint answers 204. -/
theorem C7_missing_season_404 (st : Store) (season_id : Nat) :
    (get_season st season_id = none →
      get_season_api st season_id = (st, 404) ∧
      (∀ q, update_season_api st season_id q = (st, 404)) ∧
      delete_season_api st season_id = (st, 404)) ∧
    (get_season st season_id ≠ none →
      (delete_season_api st season_id).2 = 204) := by
  constructor
  · intro hnone
    have habsent : ∀ s ∈ st.seasons, (s.id == season_id) = false := by
      intro s hs
      have := List.find?_eq_none.mp hnone s hs
      simpa using this
    have hdead : st.seasons.filter (fun s => s.id == season_id) = [] :=
      List.filter_eq_nil_iff.mpr
        (fun s hs => by rw [habsent s hs]; exact Bool.false_ne_true)
    have hseasons : st.seasons.filter (fun s => !(s.id == season_id))
        = st.seasons := by
      rw [List.filter_eq_self]
      intro s hs
      rw [habsent s hs]
      rfl
    have hdel : delete_season st season_id = (st, false) := by
      unfold delete_season
      rw [hdead, hseasons]
      obtain ⟨pl, se, pa, ev, ma⟩ := st
      simp
    refine ⟨?_, ?_, ?_⟩
    · unfold get_season_api
      rw [hnone]
    · intro q
      unfold update_season_api
      rw [hnone]
    · unfold delete_season_api
      rw [hdel]
      rfl
  · intro hsome
    obtain ⟨existing, hex⟩ := Option.ne_none_iff_exists'.mp hsome
    have hmem : existing ∈ st.seasons := List.mem_of_find?_eq_some hex
    have hpred : (existing.id == season_id) = true := by
      have := List.find?_some hex
      simpa using this
    have hdead : existing ∈ st.seasons.filter (fun s => s.id == season_id) :=
      List.mem_filter.mpr ⟨hmem, hpred⟩
    have hne : st.seasons.filter (fun s => s.id == season_id) ≠ [] :=
      List.ne_nil_of_mem hdead
    unfold delete_season_api delete_season
    simp only []
    rw [if_pos]
    rw [Bool.not_eq_true', ← Bool.not_eq_true, List.isEmpty_iff]
    exact hne

/-- C7 witness: season 7 is absent from the sample store, so the get
endpoint answers 404 with the store unchanged; season 1 is present, so the
delete endpoint answers 204. -/
theorem C7_missing_season_404_witness :
    get_season_api sampleStore 7 = (sampleStore, 404) ∧
    (delete_season_api sampleStore 1).2 = 204 :=
  ⟨((C7_missing_season_404 sampleStore 7).1 (by decide)).1,
    (C7_missing_season_404 sampleStore 1).2 (by decide)⟩

end Theorems

end LocalLeague
